import Mathlib

/-!
Verification of the delegated-authorization token broker of the
2025-CMB-iam-tutorial repository.  The two near-duplicate Python auth
modules (`b2c/pizza-agent/sdk/auth.py` and
`b2c/pizza-agent-autogen/sdk/auth.py`) are shallowly embedded below:
pure helpers become Lean functions, the mutable dictionaries
(`TTLCache` token store, pending-authorization tables) become explicit
state passed through the operations, wall-clock time becomes an `Int`
parameter `now` in seconds, and network calls made by the broker are
passed in as explicit result parameters.  Python exceptions are
modelled with `Except`.
-/

set_option linter.unusedVariables false

deriving instance DecidableEq for Except

namespace Broker

/-- OAuth token grant kinds (`OAuthTokenType` enum, identical in both
auth modules). -/
inductive OAuthTokenType
  | CLIENT_TOKEN
  | OBO_TOKEN
  | AGENT_TOKEN
deriving DecidableEq, Repr

/-- `OAuthToken` pydantic model (identical in both auth modules).
`expires_at` is a Unix timestamp; time is modelled in whole seconds. -/
structure OAuthToken where
  access_token : String
  token_type : String := "Bearer"
  expires_in : Option Int := none
  refresh_token : Option String := none
  scope : Option String := none
  id_token : Option String := none
  expires_at : Option Int := none
deriving DecidableEq, Repr

/-- `OAuthToken.is_expired`.  Python's `if not self.expires_at` is true
both when `expires_at` is `None` and when it is `0` (falsy float);
otherwise the check is `time.time() >= self.expires_at - 60`. -/
def OAuthToken.is_expired (t : OAuthToken) (now : Int) : Bool :=
  match t.expires_at with
  | none => true
  | some e => if e = 0 then true else decide (now ≥ e - 60)

/-- Equality of `frozenset(scopes)` values: two scope lists are the
same frozenset exactly when they have the same members. -/
def scopesEqv (a b : List String) : Bool :=
  a.all (fun s => decide (s ∈ b)) && b.all (fun s => decide (s ∈ a))

/-- Two scope lists denote the same frozenset iff they have the same
members. -/
theorem scopesEqv_iff {a b : List String} :
    scopesEqv a b = true ↔ ∀ s, s ∈ a ↔ s ∈ b := by
  simp only [scopesEqv, Bool.and_eq_true, List.all_eq_true, decide_eq_true_eq]
  constructor
  · rintro ⟨h1, h2⟩ s; exact ⟨fun hs => h1 s hs, fun hs => h2 s hs⟩
  · intro h; exact ⟨fun s hs => (h s).mp hs, fun s hs => (h s).mpr hs⟩

/-- Python truthiness of an optional string: `not x` is true when the
value is absent or the empty string. -/
def strFalsy : Option String → Bool
  | none => true
  | some s => s == ""

/-- Python dict lookup on an association list. -/
def dictGet {β : Type} (d : List (String × β)) (k : String) : Option β :=
  (d.find? (fun e => e.1 == k)).map (·.2)

/-- Python dict `pop(key)`: the entry for the key is removed. -/
def dictPop {β : Type} (d : List (String × β)) (k : String) :
    List (String × β) :=
  d.filter (fun e => !(e.1 == k))

/-- Python dict assignment `d[key] = v`. -/
def dictSet {β : Type} (d : List (String × β)) (k : String) (v : β) :
    List (String × β) :=
  dictPop d k ++ [(k, v)]

/-- After popping a key nothing in the dict matches it. -/
theorem find?_dictPop {β : Type} (d : List (String × β)) (k : String) :
    (dictPop d k).find? (fun e => e.1 == k) = none := by
  refine List.find?_eq_none.mpr ?_
  intro e he
  have h := List.of_mem_filter he
  simp only [Bool.not_eq_true'] at h
  simp [h]

/-- Popping a key makes its lookup absent. -/
theorem dictGet_dictPop_self {β : Type} (d : List (String × β))
    (k : String) : dictGet (dictPop d k) k = none := by
  unfold dictGet
  rw [find?_dictPop]
  rfl

/-- Assigning a key makes its lookup return the assigned value. -/
theorem dictGet_dictSet_self {β : Type} (d : List (String × β))
    (k : String) (v : β) : dictGet (dictSet d k v) k = some v := by
  unfold dictGet dictSet
  rw [List.find?_append, find?_dictPop]
  simp [List.find?]

/-- Resolution status of an `asyncio.Future`. -/
inductive FutStatus
  | pending
  | doneResult
  | doneError
  | cancelled
deriving DecidableEq, Repr

/-- `Future.done()`: true once the future has a result, an exception,
or was cancelled. -/
def FutStatus.done : FutStatus → Bool
  | .pending => false
  | _ => true

/-!
Model of the `cachetools.TTLCache` used as the token store by both
`TokenManager` classes: an association list of (key, value, insertion
time).  An entry is usable while `now < insertion + ttl`; insertion
drops TTL-expired entries and any previous entry for the key, and
evicts the oldest entry when at capacity.  The key type and the
Python dict's key equality are parameters, because the two modules
build different cache keys.
-/

namespace TTL

variable {κ : Type}

/-- `TTLCache.get`: return the stored value if the key is present and
its cache-level TTL has not elapsed; expired or missing keys give
`None`. -/
def get (beq : κ → κ → Bool) (store : List (κ × OAuthToken × Int))
    (ttl : Int) (k : κ) (now : Int) : Option OAuthToken :=
  match store.find? (fun e => beq e.1 k) with
  | some (_, tok, t0) => if now < t0 + ttl then some tok else none
  | none => none

/-- `TTLCache.pop(key)`: remove the entry for the key. -/
def pop (beq : κ → κ → Bool) (store : List (κ × OAuthToken × Int))
    (k : κ) : List (κ × OAuthToken × Int) :=
  store.eraseP (fun e => beq e.1 k)

/-- `TTLCache.__setitem__`: drop TTL-expired entries and any previous
entry for the key, evict the oldest entry if at capacity, then insert
with the current time. -/
def set (beq : κ → κ → Bool) (store : List (κ × OAuthToken × Int))
    (ttl : Int) (maxsize : Nat) (k : κ) (tok : OAuthToken) (now : Int) :
    List (κ × OAuthToken × Int) :=
  let live := store.filter
    (fun e => decide (now < e.2.2 + ttl) && !(beq e.1 k))
  let live := if maxsize ≤ live.length then live.tail else live
  live ++ [(k, tok, now)]

/-- If at most one element of a list satisfies `p` (pairwise, no two
elements both satisfy it), then after erasing the first match nothing
in the list satisfies `p` any more. -/
theorem find?_eraseP_of_atMostOne {α : Type} (p : α → Bool) :
    ∀ l : List α, l.Pairwise (fun x y => ¬(p x = true ∧ p y = true)) →
      (l.eraseP p).find? p = none
  | [], _ => rfl
  | a :: t, h => by
    rcases List.pairwise_cons.mp h with ⟨ha, ht⟩
    by_cases hpa : p a = true
    · rw [List.eraseP_cons_of_pos hpa]
      exact List.find?_eq_none.mpr (fun x hx hpx => (ha x hx) ⟨hpa, hpx⟩)
    · rw [List.eraseP_cons_of_neg (by simpa using hpa),
        List.find?_cons_of_neg _ (by simpa using hpa)]
      exact find?_eraseP_of_atMostOne p t ht

/-- Well-formedness of a store: no two entries have keys that the
cache's key equality identifies.  `set` establishes it for the key it
inserts, so stores built by the program satisfy it. -/
def WF (beq : κ → κ → Bool) (store : List (κ × OAuthToken × Int)) : Prop :=
  store.Pairwise (fun e1 e2 => ¬(beq e1.1 e2.1 = true))

/-- After popping a key from a well-formed store, a lookup of that key
finds nothing. -/
theorem get_pop_self (beq : κ → κ → Bool)
    (hsymm : ∀ a b, beq a b = true → beq b a = true)
    (htrans : ∀ a b c, beq a b = true → beq b c = true → beq a c = true)
    (store : List (κ × OAuthToken × Int)) (ttl : Int) (k : κ) (now : Int)
    (hwf : WF beq store) : get beq (pop beq store k) ttl k now = none := by
  have hpair : store.Pairwise
      (fun e1 e2 => ¬(beq e1.1 k = true ∧ beq e2.1 k = true)) := by
    refine hwf.imp ?_
    intro e1 e2 hne hc
    exact hne (htrans _ _ _ hc.1 (hsymm _ _ hc.2))
  have h := find?_eraseP_of_atMostOne (fun e => beq e.1 k) store hpair
  simp only [pop, get]
  rw [h]

/-- Looking up a key equal to the one just `set` returns the stored
token, whatever the store held before, provided the TTL is positive. -/
theorem get_set_of_beq (beq : κ → κ → Bool)
    (hsymm : ∀ a b, beq a b = true → beq b a = true)
    (htrans : ∀ a b c, beq a b = true → beq b c = true → beq a c = true)
    (store : List (κ × OAuthToken × Int)) (ttl : Int) (maxsize : Nat)
    (k k' : κ) (tok : OAuthToken) (now : Int)
    (hbeq : beq k k' = true) (httl : 0 < ttl) :
    get beq (set beq store ttl maxsize k tok now) ttl k' now = some tok := by
  simp only [set, get]
  set live0 := store.filter
    (fun e => decide (now < e.2.2 + ttl) && !(beq e.1 k)) with hlive0
  have hnomatch : ∀ e ∈ (if maxsize ≤ live0.length then live0.tail else live0),
      ¬(beq e.1 k' = true) := by
    intro e he hk'
    have he0 : e ∈ live0 := by
      by_cases hc : maxsize ≤ live0.length
      · rw [if_pos hc] at he; exact List.mem_of_mem_tail he
      · rwa [if_neg hc] at he
    have := List.of_mem_filter he0
    simp only [Bool.and_eq_true, Bool.not_eq_true'] at this
    exact absurd (htrans _ _ _ hk' (hsymm _ _ hbeq)) (by simp [this.2])
  rw [List.find?_append]
  have h1 : (if maxsize ≤ live0.length then live0.tail else live0).find?
      (fun e => beq e.1 k') = none :=
    List.find?_eq_none.mpr (fun e he hp => hnomatch e he hp)
  rw [h1]
  simp only [Option.none_orElse, List.find?_cons, hbeq]
  simp [httl]

/-- Inserting into an empty store under one key and looking up a key
the cache's equality does not identify with it finds nothing. -/
theorem get_set_nil_of_not_beq (beq : κ → κ → Bool) (ttl : Int)
    (maxsize : Nat) (k k' : κ) (tok : OAuthToken) (now : Int)
    (hbeq : beq k k' = false) :
    get beq (set beq [] ttl maxsize k tok now) ttl k' now = none := by
  simp only [set, get, List.filter_nil]
  by_cases hc : maxsize ≤ (List.nil (α := κ × OAuthToken × Int)).length
  · rw [if_pos hc]
    simp [List.find?, hbeq]
  · rw [if_neg hc]
    simp [List.find?, hbeq]

end TTL

namespace PizzaAgent

/-- `AuthConfig` of `pizza-agent/sdk/auth.py`: `resource` is
`Optional[str]`. -/
structure AuthConfig where
  scopes : List String
  token_type : OAuthTokenType := .CLIENT_TOKEN
  resource : Option String := none
deriving DecidableEq, Repr

/-- The cache key built by the pizza-agent `TokenManager`:
`(frozenset(config.scopes), config.token_type, config.resource)`. -/
structure CacheKey where
  scopes : List String
  token_type : OAuthTokenType
  resource : Option String
deriving DecidableEq, Repr

/-- Python dict key equality for the pizza-agent cache key: frozensets
compare as sets, the enum and the optional string compare by value. -/
def keyBEq (k1 k2 : CacheKey) : Bool :=
  scopesEqv k1.scopes k2.scopes && k1.token_type == k2.token_type
    && k1.resource == k2.resource

/-- The cache key of a config: scopes frozenset, token type,
resource. -/
def AuthConfig.key (c : AuthConfig) : CacheKey :=
  ⟨c.scopes, c.token_type, c.resource⟩

/-- Unfolded characterisation of pizza-agent cache-key equality. -/
theorem keyBEq_iff {k1 k2 : CacheKey} :
    keyBEq k1 k2 = true ↔ (∀ s, s ∈ k1.scopes ↔ s ∈ k2.scopes) ∧
      k1.token_type = k2.token_type ∧ k1.resource = k2.resource := by
  simp [keyBEq, scopesEqv_iff, and_assoc]

/-- Pizza-agent cache-key equality is symmetric. -/
theorem keyBEq_symm (k1 k2 : CacheKey) (h : keyBEq k1 k2 = true) :
    keyBEq k2 k1 = true := by
  rcases keyBEq_iff.mp h with ⟨hs, ht, hr⟩
  exact keyBEq_iff.mpr ⟨fun s => (hs s).symm, ht.symm, hr.symm⟩

/-- Pizza-agent cache-key equality is transitive. -/
theorem keyBEq_trans (k1 k2 k3 : CacheKey) (h1 : keyBEq k1 k2 = true)
    (h2 : keyBEq k2 k3 = true) : keyBEq k1 k3 = true := by
  rcases keyBEq_iff.mp h1 with ⟨hs1, ht1, hr1⟩
  rcases keyBEq_iff.mp h2 with ⟨hs2, ht2, hr2⟩
  exact keyBEq_iff.mpr
    ⟨fun s => (hs1 s).trans (hs2 s), ht1.trans ht2, hr1.trans hr2⟩

/-- Pizza-agent `TokenManager` state: the `TTLCache` with its
parameters. -/
structure TokenManager where
  token_store : List (CacheKey × OAuthToken × Int)
  maxsize : Nat := 1000
  ttl : Int := 3600
deriving DecidableEq, Repr

/-- `TokenManager.add_token`: `self.token_store[key] = token`. -/
def TokenManager.add_token (m : TokenManager) (config : AuthConfig)
    (token : OAuthToken) (now : Int) : TokenManager :=
  { m with token_store :=
      TTL.set keyBEq m.token_store m.ttl m.maxsize config.key token now }

/-- `TokenManager.get_token` of `pizza-agent/sdk/auth.py` (lines
207-215): look the key up, and *if the stored token's own
`is_expired()` holds, pop the entry — but still return the token that
was found*.  Returns the Python return value together with the updated
store. -/
def TokenManager.get_token (m : TokenManager) (config : AuthConfig)
    (now : Int) : Option OAuthToken × TokenManager :=
  let key := config.key
  match TTL.get keyBEq m.token_store m.ttl key now with
  | some token =>
      if token.is_expired now then
        (some token,
          { m with token_store := TTL.pop keyBEq m.token_store key })
      else (some token, m)
  | none => (none, m)

/-- Well-formed pizza-agent token store: no duplicate cache keys. -/
def TokenManager.WF (m : TokenManager) : Prop :=
  TTL.WF keyBEq m.token_store

instance (m : TokenManager) : Decidable (m.WF) := by
  unfold TokenManager.WF TTL.WF
  infer_instance

/-- Concrete data for claim C1: a delegated-grant config and a token
that expires at time 1000, cached at time 0 in a store with the default
cache-level TTL of 3600. -/
def cfg1 : AuthConfig :=
  { scopes := ["order:write"], token_type := .OBO_TOKEN,
    resource := some "pizza_api" }

/-- Concrete token for claim C1. -/
def tok1 : OAuthToken :=
  { access_token := "tok1-access", refresh_token := some "tok1-refresh",
    expires_at := some 1000 }

/-- Concrete store for claim C1: `tok1` added under `cfg1` at time 0. -/
def mgr1 : TokenManager := TokenManager.add_token ⟨[], 1000, 3600⟩ cfg1 tok1 0

/-- Claim C1 is false as stated: at time 2000 the stored token is
expired (`expires_at - 60 = 940 ≤ 2000`) while the cache-level TTL
(3600s from insertion at 0) has not elapsed, yet
`TokenManager.get_token` returns the expired token rather than `None` —
the source pops the entry but still returns the popped token. -/
theorem claim1_counterexample :
    tok1.is_expired 2000 = true ∧ ((2000 : Int) < 0 + mgr1.ttl) ∧
      (mgr1.get_token cfg1 2000).1 = some tok1 := by decide

/-- Whenever `get_token` on a well-formed store returns a token that
is expired at `now`, a second `get_token` on the store it leaves
behind returns `none`: the expired entry was evicted. -/
theorem get_token_expired_evicts (m : TokenManager) (cfg : AuthConfig)
    (now : Int) (t : OAuthToken) (hwf : m.WF)
    (hget : (m.get_token cfg now).1 = some t)
    (hexp : t.is_expired now = true) :
    ((m.get_token cfg now).2.get_token cfg now).1 = none := by
  have hdef : ∀ m' : TokenManager, m'.get_token cfg now =
      match TTL.get keyBEq m'.token_store m'.ttl cfg.key now with
      | some token =>
          if token.is_expired now then
            (some token,
              { m' with token_store := TTL.pop keyBEq m'.token_store cfg.key })
          else (some token, m')
      | none => (none, m') := fun _ => rfl
  have hsnd : (m.get_token cfg now).2 =
      { m with token_store := TTL.pop keyBEq m.token_store cfg.key } := by
    rw [hdef] at hget ⊢
    cases hfind : TTL.get keyBEq m.token_store m.ttl cfg.key now with
    | none => simp only [hfind] at hget; simp at hget
    | some token =>
      simp only [hfind] at hget ⊢
      by_cases hexp2 : token.is_expired now = true
      · rw [if_pos hexp2]
      · rw [if_neg hexp2] at hget
        simp only [Option.some.injEq] at hget
        rw [hget] at hexp2
        exact absurd hexp hexp2
  rw [hsnd, hdef]
  rw [show ({ m with token_store := TTL.pop keyBEq m.token_store cfg.key } :
      TokenManager).token_store = TTL.pop keyBEq m.token_store cfg.key from rfl]
  rw [TTL.get_pop_self keyBEq keyBEq_symm keyBEq_trans m.token_store
    m.ttl cfg.key now hwf]

/-- Claim C1 (amended): `get_token` does evict an entry whose token is
expired, but it returns the expired token itself on that call; it is
any subsequent `get_token` for the key that returns absent.  Formally:
whenever `get_token` on a well-formed store returns a token that is
expired at `now`, a second `get_token` on the store it leaves behind
returns `none`. -/
theorem claim1_theorem (m : TokenManager) (cfg : AuthConfig) (now : Int)
    (t : OAuthToken) (hwf : m.WF)
    (hget : (m.get_token cfg now).1 = some t)
    (hexp : t.is_expired now = true) :
    ((m.get_token cfg now).2.get_token cfg now).1 = none :=
  get_token_expired_evicts m cfg now t hwf hget hexp

/-- Witness for claim C1's amended theorem at the concrete store
`mgr1`. -/
theorem claim1_witness :
    ((mgr1.get_token cfg1 2000).2.get_token cfg1 2000).1 = none :=
  claim1_theorem mgr1 cfg1 2000 tok1 (by decide) (by decide) (by decide)

/-- Unfolding equation for `TokenManager.get_token`. -/
theorem TokenManager.get_token_def (m : TokenManager) (cfg : AuthConfig)
    (now : Int) : m.get_token cfg now =
      match TTL.get keyBEq m.token_store m.ttl cfg.key now with
      | some token =>
          if token.is_expired now then
            (some token,
              { m with token_store := TTL.pop keyBEq m.token_store cfg.key })
          else (some token, m)
      | none => (none, m) := rfl

/-- `PizzaAuthManager._refresh_oauth_token` (lines 320-338): returns
`None` without any network call when the refresh token is falsy
(`if not refresh_token: return None`); otherwise performs the network
refresh, whose outcome is the explicit parameter `net`; a network
failure is logged and re-raised. -/
def refresh_oauth_token (refresh_token : Option String)
    (net : Except String OAuthToken) : Except String (Option OAuthToken) :=
  if strFalsy refresh_token then .ok none
  else
    match net with
    | .ok t => .ok (some t)
    | .error e => .error e

/-- `PizzaAuthManager.get_oauth_token` (lines 564-592).  The network
outcomes of the three possible external calls are explicit parameters:
`refreshNet` for `_refresh_oauth_token`'s HTTP call, `oboFetch` for
`_fetch_obo_token` (which may legitimately produce `None` on timeout),
`clientFetch` for the client-credentials `_fetch_oauth_token`.  Control
flow: cache lookup; if a token was found and is expired, refresh it
(raising refresh errors); any token now in hand is returned without
touching the cache; otherwise fetch per grant kind, and cache the
fetched token when one was obtained. -/
def get_oauth_token (m : TokenManager) (config : AuthConfig) (now : Int)
    (refreshNet : Except String OAuthToken)
    (oboFetch : Except String (Option OAuthToken))
    (clientFetch : Except String OAuthToken) :
    Except String (Option OAuthToken) × TokenManager :=
  let m1 := (m.get_token config now).2
  let afterRefresh : Except String (Option OAuthToken) :=
    match (m.get_token config now).1 with
    | some t =>
        if t.is_expired now then refresh_oauth_token t.refresh_token refreshNet
        else .ok (some t)
    | none => .ok none
  match afterRefresh with
  | .error e => (.error e, m1)
  | .ok (some t) => (.ok (some t), m1)
  | .ok none =>
      match config.token_type with
      | .OBO_TOKEN =>
          match oboFetch with
          | .error e => (.error e, m1)
          | .ok none => (.ok none, m1)
          | .ok (some t) => (.ok (some t), m1.add_token config t now)
      | .CLIENT_TOKEN =>
          match clientFetch with
          | .error e => (.error e, m1)
          | .ok t => (.ok (some t), m1.add_token config t now)
      | .AGENT_TOKEN => (.error "Unsupported token type", m1)

/-- Concrete config for claim C4. -/
def cfg4 : AuthConfig :=
  { scopes := ["order:write"], token_type := .OBO_TOKEN,
    resource := some "pizza_api" }

/-- Concrete expired-but-refreshable token for claim C4. -/
def tok4 : OAuthToken :=
  { access_token := "tok4-old", refresh_token := some "tok4-refresh",
    expires_at := some 1000 }

/-- Concrete refreshed token for claim C4. -/
def fresh4 : OAuthToken :=
  { access_token := "tok4-new", refresh_token := some "tok4-refresh2",
    expires_at := some 9000 }

/-- Concrete store for claim C4: `tok4` cached under `cfg4` at time
0 and queried at time 2000, when it is expired. -/
def mgr4 : TokenManager := TokenManager.add_token ⟨[], 1000, 3600⟩ cfg4 tok4 0

/-- Claim C4 is false as stated, on two counts.  (1) When the refresh
succeeds, the refreshed token is returned but does NOT replace the
cached entry: the expired entry was evicted by the lookup and nothing
is re-cached, so a subsequent `get_token` for the key is absent.
(2) When the refresh network call fails, the error propagates out of
`get_oauth_token` (the `except` block re-raises) instead of falling
through to the consent / fresh-fetch path. -/
theorem claim4_counterexample :
    ((get_oauth_token mgr4 cfg4 2000 (.ok fresh4) (.ok none)
        (.error "no")).1 = .ok (some fresh4) ∧
      ((get_oauth_token mgr4 cfg4 2000 (.ok fresh4) (.ok none)
        (.error "no")).2.get_token cfg4 2000).1 = none) ∧
    (get_oauth_token mgr4 cfg4 2000 (.error "refresh-failed")
        (.ok (some fresh4)) (.ok fresh4)).1 = .error "refresh-failed" := by
  decide

/-- Claim C4 (amended): when `get_oauth_token` finds a cached token
that is expired, it attempts a refresh with the token's refresh token.
On refresh success the refreshed token is returned to the caller but
is NOT re-cached: the expired entry has already been evicted and the
store is left without an entry for that key.  When the refresh network
call fails, the error propagates to the caller instead of falling
through to the fresh-fetch path.  Only a falsy (absent or empty)
refresh token makes the request fall through, without raising, to the
fresh-fetch path, which does cache the fetched token. -/
theorem claim4_theorem (m : TokenManager) (cfg : AuthConfig) (now : Int)
    (t0 : OAuthToken) (hwf : m.WF)
    (hget : (m.get_token cfg now).1 = some t0)
    (hexp : t0.is_expired now = true) :
    (∀ tok oboF clientF, strFalsy t0.refresh_token = false →
      (get_oauth_token m cfg now (.ok tok) oboF clientF).1 =
          .ok (some tok) ∧
        (get_oauth_token m cfg now (.ok tok) oboF clientF).2 =
          (m.get_token cfg now).2 ∧
        ((get_oauth_token m cfg now (.ok tok) oboF clientF
          ).2.get_token cfg now).1 = none) ∧
    (∀ e oboF clientF, strFalsy t0.refresh_token = false →
      (get_oauth_token m cfg now (.error e) oboF clientF).1 = .error e) ∧
    (∀ tok refreshNet oboF, strFalsy t0.refresh_token = true →
      cfg.token_type = .CLIENT_TOKEN →
      (get_oauth_token m cfg now refreshNet oboF (.ok tok)).1 =
          .ok (some tok) ∧
        (get_oauth_token m cfg now refreshNet oboF (.ok tok)).2 =
          ((m.get_token cfg now).2).add_token cfg tok now) := by
  refine ⟨?_, ?_, ?_⟩
  · intro tok oboF clientF hfalsy
    have h1 : (get_oauth_token m cfg now (.ok tok) oboF clientF) =
        (.ok (some tok), (m.get_token cfg now).2) := by
      simp [get_oauth_token, hget, hexp, refresh_oauth_token, hfalsy]
    refine ⟨by rw [h1], by rw [h1], ?_⟩
    rw [h1]
    exact get_token_expired_evicts m cfg now t0 hwf hget hexp
  · intro e oboF clientF hfalsy
    simp [get_oauth_token, hget, hexp, refresh_oauth_token, hfalsy]
  · intro tok refreshNet oboF hfalsy htype
    constructor
    · simp [get_oauth_token, hget, hexp, refresh_oauth_token, hfalsy, htype]
    · simp [get_oauth_token, hget, hexp, refresh_oauth_token, hfalsy, htype]

/-- Witness for claim C4's amended theorem at concrete inputs. -/
theorem claim4_witness :
    ((get_oauth_token mgr4 cfg4 2000 (.ok fresh4) (.ok none)
        (.error "no")).1 = .ok (some fresh4) ∧
      (get_oauth_token mgr4 cfg4 2000 (.ok fresh4) (.ok none)
        (.error "no")).2 = (mgr4.get_token cfg4 2000).2 ∧
      ((get_oauth_token mgr4 cfg4 2000 (.ok fresh4) (.ok none)
        (.error "no")).2.get_token cfg4 2000).1 = none) ∧
    (get_oauth_token mgr4 cfg4 2000 (.error "boom") (.ok none)
      (.error "no")).1 = .error "boom" :=
  ⟨(claim4_theorem mgr4 cfg4 2000 tok4 (by decide) (by decide)
      (by decide)).1 fresh4 (.ok none) (.error "no") (by decide),
    (claim4_theorem mgr4 cfg4 2000 tok4 (by decide) (by decide)
      (by decide)).2.1 "boom" (.ok none) (.error "no") (by decide)⟩

/-!
The pending-authorization machinery of `pizza-agent/sdk/auth.py`.
`_pending_auths` is a module-level dict from the state string to a
Python tuple.  Because the stored tuples and the unpacking patterns
applied to them do not agree in the source (a four-element tuple is
stored at line 512, a three-name unpack is applied at line 559),
entries are modelled as genuine Python tuples — lists of values — and
unpacking is length-checked, as in Python.
-/

/-- Python values occurring in `_pending_auths` tuples. -/
inductive Py
  | scopes (s : List String)
  | ostr (s : Option String)
  | str (s : String)
  | fut (id : String)
deriving DecidableEq, Repr

/-- Python errors raised by the pending-authorization machinery. -/
inductive PyErr
  | valueErrorUnpack           -- "too many values to unpack"
  | valueErrorInvalidState     -- "Invalid state or no pending authorization."
  | valueErrorAlreadyCompleted -- "Authorization already completed."
  | invalidStateFuture         -- asyncio.InvalidStateError
  | attributeTypeError         -- future method called on a non-future
  | exchangeError (e : String) -- token-endpoint exchange failure
deriving DecidableEq, Repr

/-- The module-level `_pending_auths` dict (line 219) together with the
resolution state of the `asyncio.Future` created for each state
string. -/
structure ModuleState where
  pending_auths : List (String × List Py)
  futures : List (String × FutStatus)
deriving DecidableEq, Repr

/-- `Future.done()` for the future registered under a state string. -/
def futDone (g : ModuleState) (fid : String) : Bool :=
  match dictGet g.futures fid with
  | some st => st.done
  | none => false

/-- Resolve, cancel or fail the future registered under a state
string. -/
def futSet (g : ModuleState) (fid : String) (st : FutStatus) : ModuleState :=
  { g with futures := dictSet g.futures fid st }

/-- The registration step of `_fetch_obo_token` (lines 510-512): a
fresh pending future is created and
`_pending_auths[state] = config.scopes, config.resource, future,
code_verifier` stores a FOUR-element tuple in the module-level dict. -/
def register_pending (g : ModuleState) (state : String)
    (scopes : List String) (resource : Option String)
    (code_verifier : String) : ModuleState :=
  { pending_auths := dictSet g.pending_auths state
      [Py.scopes scopes, Py.ostr resource, Py.fut state,
        Py.str code_verifier],
    futures := dictSet g.futures state .pending }

/-- Python tuple unpacking into three names (`_, future, _ = ...`):
raises `ValueError` unless the tuple has exactly three elements. -/
def unpack3 (t : List Py) : Except PyErr (Py × Py × Py) :=
  match t with
  | [a, b, c] => .ok (a, b, c)
  | _ => .error .valueErrorUnpack

/-- Python tuple unpacking into four names. -/
def unpack4 (t : List Py) : Except PyErr (Py × Py × Py × Py) :=
  match t with
  | [a, b, c, d] => .ok (a, b, c, d)
  | _ => .error .valueErrorUnpack

/-- What the suspended `_fetch_obo_token` caller observes. -/
inductive CallerObs
  | success          -- `wait_for` returned the token set by the callback
  | timeoutNone      -- the TimeoutError handler finished: `return None`
  | errorFromFuture  -- the callback put an exchange error on the future
  | pyError (e : PyErr)  -- an exception escaped the TimeoutError handler
deriving DecidableEq, Repr

/-- The `except asyncio.TimeoutError` block of `_fetch_obo_token`
(lines 556-562): `if state in _pending_auths:` pop the entry and
unpack it into THREE names `_, future, _` (the stored entry has FOUR
elements), cancel the unpacked future if not done; finally
`return None`. -/
def timeout_handler (g : ModuleState) (state : String) :
    CallerObs × ModuleState :=
  match dictGet g.pending_auths state with
  | some entry =>
      let g1 : ModuleState :=
        { g with pending_auths := dictPop g.pending_auths state }
      match unpack3 entry with
      | .error e => (.pyError e, g1)
      | .ok (_, f, _) =>
          match f with
          | .fut fid =>
              if futDone g1 fid then (.timeoutNone, g1)
              else (.timeoutNone, futSet g1 fid .cancelled)
          | _ => (.pyError .attributeTypeError, g1)
  | none => (.timeoutNone, g)

/-- The complete timeout path of `_fetch_obo_token` (lines 551-562):
when the timeout fires, `asyncio.wait_for` cancels the still-pending
future and raises `TimeoutError`; the `except` block then runs. -/
def timeout_path (g : ModuleState) (state : String) :
    CallerObs × ModuleState :=
  let g := if futDone g state then g else futSet g state .cancelled
  timeout_handler g state

/-- `PizzaAuthManager.process_callback` (lines 594-751), sequential
form, with the token-endpoint exchange outcome passed in as
`exchange`.  Raises "Invalid state or no pending authorization." for
states absent from the module-level `_pending_auths`; pops the entry;
raises "Authorization already completed." when the entry's future is
already done; otherwise performs the exchange, setting its outcome on
the future and returning (or re-raising) it. -/
def process_callback (g : ModuleState) (state : String)
    (exchange : Except String OAuthToken) :
    Except PyErr OAuthToken × ModuleState :=
  match dictGet g.pending_auths state with
  | none => (.error .valueErrorInvalidState, g)
  | some entry =>
      let g1 : ModuleState :=
        { g with pending_auths := dictPop g.pending_auths state }
      match unpack4 entry with
      | .error e => (.error e, g1)
      | .ok (_, _, f, _) =>
          match f with
          | .fut fid =>
              if futDone g1 fid then
                (.error .valueErrorAlreadyCompleted, g1)
              else
                match exchange with
                | .ok tok => (.ok tok, futSet g1 fid .doneResult)
                | .error e =>
                    (.error (.exchangeError e), futSet g1 fid .doneError)
          | _ => (.error .attributeTypeError, g1)

/-- Module state for claim C2: one pending authorization registered
under state "st2", exactly as `_fetch_obo_token` leaves it before
suspending. -/
def g2 : ModuleState :=
  register_pending ⟨[], []⟩ "st2" ["order:write"] (some "pizza_api") "ver2"

/-- Claim C2 names the intended behaviour, but the code has a slip:
line 512 stores a FOUR-element tuple while the timeout handler at line
559 unpacks it into THREE names.  On timeout the Pending entry is
removed from the table, but instead of completing the cleanup and
returning `None` (the timeout signal), the handler raises
`ValueError: too many values to unpack` to the suspended caller. -/
theorem claim2_code_eval :
    (dictGet g2.pending_auths "st2").map List.length = some 4 ∧
      (timeout_path g2 "st2").1 = .pyError .valueErrorUnpack ∧
      dictGet (timeout_path g2 "st2").2.pending_auths "st2" = none := by
  decide

/-- Module state for claim C3: one pending authorization registered
under state "st3". -/
def g3 : ModuleState :=
  register_pending ⟨[], []⟩ "st3" ["order:write"] (some "pizza_api") "ver3"

/-- Concrete exchanged token for claim C3. -/
def tok3 : OAuthToken :=
  { access_token := "tok3-access", expires_at := some 9000 }

/-- Claim C3 is false as stated: a successful first `process_callback`
pops the pending entry, so a second call with the same state raises
"Invalid state or no pending authorization." — the same error as for
unknown states — not "Authorization already completed.". -/
theorem claim3_counterexample :
    (process_callback g3 "st3" (.ok tok3)).1 = .ok tok3 ∧
      (process_callback (process_callback g3 "st3" (.ok tok3)).2 "st3"
        (.ok tok3)).1 = .error .valueErrorInvalidState ∧
      (process_callback (process_callback g3 "st3" (.ok tok3)).2 "st3"
        (.ok tok3)).1 ≠ .error .valueErrorAlreadyCompleted := by
  decide

/-- Claim C3 (amended): after a first `process_callback` for a state
succeeds, the entry has been consumed, so a second call with the same
state fails with the "invalid state or no pending authorization"
error, not with "authorization already completed"; the latter error is
raised exactly when the entry is still present while its future is
already done (the timeout-cancellation race, not the
second-sequential-call case). -/
theorem claim3_theorem :
    (∀ (g : ModuleState) (state : String)
        (exch exch2 : Except String OAuthToken) (tok : OAuthToken),
      (process_callback g state exch).1 = .ok tok →
      (process_callback (process_callback g state exch).2 state exch2).1 =
        .error .valueErrorInvalidState) ∧
    (∀ (g : ModuleState) (state : String)
        (exch : Except String OAuthToken) (sc : List String)
        (r : Option String) (fid v : String),
      dictGet g.pending_auths state =
        some [Py.scopes sc, Py.ostr r, Py.fut fid, Py.str v] →
      futDone g fid = true →
      (process_callback g state exch).1 =
        .error .valueErrorAlreadyCompleted) := by
  constructor
  · intro g state exch exch2 tok hok
    cases hfind : dictGet g.pending_auths state with
    | none => simp [process_callback, hfind] at hok
    | some entry =>
      cases hun : unpack4 entry with
      | error e => simp [process_callback, hfind, hun] at hok
      | ok q =>
        obtain ⟨a, b, f, d⟩ := q
        cases f with
        | scopes s => simp [process_callback, hfind, hun] at hok
        | ostr s => simp [process_callback, hfind, hun] at hok
        | str s => simp [process_callback, hfind, hun] at hok
        | fut fid =>
          by_cases hdone : futDone
              { g with pending_auths := dictPop g.pending_auths state }
              fid = true
          · simp [process_callback, hfind, hun, hdone] at hok
          · cases exch with
            | error e => simp [process_callback, hfind, hun, hdone] at hok
            | ok tk =>
              have hsnd : (process_callback g state (.ok tk)).2 =
                  futSet
                    { g with pending_auths := dictPop g.pending_auths state }
                    fid .doneResult := by
                simp [process_callback, hfind, hun, hdone]
              rw [hsnd]
              have hnone : dictGet (futSet
                  { g with pending_auths := dictPop g.pending_auths state }
                  fid .doneResult).pending_auths state = none := by
                show dictGet (dictPop g.pending_auths state) state = none
                exact dictGet_dictPop_self _ _
              simp [process_callback, hnone]
  · intro g state exch sc r fid v hfind hdone
    have hdone1 : futDone
        { g with pending_auths := dictPop g.pending_auths state } fid =
          true := hdone
    simp [process_callback, hfind, unpack4, hdone1]

/-- Witness for claim C3's amended theorem: the invalid-state error on
a second sequential call after success, and the already-completed
error when the entry survives with a cancelled future. -/
theorem claim3_witness :
    (process_callback (process_callback g3 "st3" (.ok tok3)).2 "st3"
        (.ok tok3)).1 = .error .valueErrorInvalidState ∧
      (process_callback (futSet g3 "st3" .cancelled) "st3"
        (.ok tok3)).1 = .error .valueErrorAlreadyCompleted :=
  ⟨claim3_theorem.1 g3 "st3" (.ok tok3) (.ok tok3) tok3 (by decide),
    claim3_theorem.2 (futSet g3 "st3" .cancelled) "st3" (.ok tok3)
      ["order:write"] (some "pizza_api") "st3" "ver3"
      (by decide) (by decide)⟩

/-- `AgentConfig` of `pizza-agent/sdk/auth.py`. -/
structure AgentConfig where
  agent_name : String
  agent_id : String
  agent_secret : String
deriving DecidableEq, Repr

/-- An agent token response (`resp_json` of the token endpoint); the
broker only ever reads its `access_token`. -/
structure AgentToken where
  access_token : String
deriving DecidableEq, Repr

/-- Outcomes of the four HTTP calls made by
`authenticate_agent_with_basic_auth` (lines 753-1028), supplied
externally.  Step 1 (`/oauth2/authorize`) yields the optional
`flowId` and first authenticator id of the response JSON; step 2
(identifier authentication) yields the next authenticator id; step 3
(password authentication) yields the optional authorization `code`;
step 4 (code-for-token exchange) yields the agent token JSON.
`.error` marks an HTTP failure (`raise_for_status` or any exception in
that call). -/
structure AgentAuthEnv where
  step1 : Except String (Option String × Option String)
  step2 : Except String (Option String)
  step3 : Except String (Option String)
  step4 : Except String AgentToken
deriving DecidableEq, Repr

/-- `authenticate_agent_with_basic_auth`: returns `None` (never
raises) when the agent config is missing, when any HTTP step fails
(the `except` clauses at lines 1015-1028 swallow everything), when
step 1 yields no usable `flowId` (line 855), or when step 3 yields no
authorization code (line 946); otherwise returns the step-4 token
response.  A missing authenticator id does not abort by itself — it
flows into the next request, whose failure then surfaces as that
step's error. -/
def authenticate_agent_with_basic_auth (agent_config : Option AgentConfig)
    (env : AgentAuthEnv) : Option AgentToken :=
  match agent_config with
  | none => none
  | some _ =>
      match env.step1 with
      | .error _ => none
      | .ok (flowId, _) =>
          if strFalsy flowId then none
          else
            match env.step2 with
            | .error _ => none
            | .ok _ =>
                match env.step3 with
                | .error _ => none
                | .ok code =>
                    if strFalsy code then none
                    else
                      match env.step4 with
                      | .error _ => none
                      | .ok tok => some tok

/-- Per-instance state of `PizzaAuthManager` relevant to claim C10:
the constructor creates `self._pending_auths = {}` (line 265) and no
method of the class ever reads or writes it again — `_fetch_obo_token`
(line 512) and `process_callback` (lines 599-607) operate on the
module-level `_pending_auths`.  The `self` fields those methods do
consume (client id, endpoints, agent token) are subsumed by the
explicit `exchange` outcome parameter. -/
structure PizzaAuthManager where
  instance_pending_auths : List (String × List Py) := []
  agent_token : Option AgentToken := none
deriving DecidableEq, Repr

/-- The relevant part of `PizzaAuthManager.__init__` (lines 253-265):
when an agent config is present, agent authentication is attempted and
any failure is swallowed (`except Exception` logs and continues), so
construction always succeeds — with `agent_token = None` on failure —
and `self._pending_auths` is initialised empty. -/
def mkPizzaAuthManager (agent_config : Option AgentConfig)
    (env : AgentAuthEnv) : PizzaAuthManager :=
  { instance_pending_auths := [],
    agent_token :=
      match agent_config with
      | none => none
      | some _ => authenticate_agent_with_basic_auth agent_config env }

/-- Parameters of a token-endpoint POST, as far as delegation is
concerned. -/
structure TokenRequestParams where
  grant_type : String
  actor_token : Option String := none
deriving DecidableEq, Repr

/-- The request built by `_fetch_oauth_token` for the
client-credentials grant (lines 413-434): no actor token is ever
attached. -/
def client_credentials_params : TokenRequestParams :=
  { grant_type := "client_credentials" }

/-- The token-exchange request of `process_callback` (lines 640-649):
the actor token is attached exactly when the broker holds an agent
token. -/
def obo_exchange_params (agent_token : Option AgentToken) :
    TokenRequestParams :=
  { grant_type := "authorization_code",
    actor_token := agent_token.map (fun t => t.access_token) }

/-- The pending-table write of `_fetch_obo_token` performed on a
manager instance: it writes the module-level table only, and the
instance is returned unchanged. -/
def fetch_obo_register (m : PizzaAuthManager) (g : ModuleState)
    (state : String) (scopes : List String) (resource : Option String)
    (code_verifier : String) : PizzaAuthManager × ModuleState :=
  (m, register_pending g state scopes resource code_verifier)

/-- `process_callback` performed on a manager instance: it reads the
module-level table only; `self._pending_auths` is not consulted. -/
def process_callback_on (m : PizzaAuthManager) (g : ModuleState)
    (state : String) (exchange : Except String OAuthToken) :
    Except PyErr OAuthToken × ModuleState :=
  process_callback g state exchange

/-- Claim C10: pending authorizations live in the module-level dict
shared by every `PizzaAuthManager` instance.  Registering through one
instance leaves that instance's own `_pending_auths` untouched,
`process_callback` does not depend on the instance it is invoked on,
and a callback processed on any instance resolves — and consumes — an
authorization registered through a different instance. -/
theorem claim10_theorem (m1 m2 : PizzaAuthManager) (g : ModuleState)
    (state : String) (scopes : List String) (resource : Option String)
    (code_verifier : String) (tok : OAuthToken) :
    (fetch_obo_register m1 g state scopes resource code_verifier).1 = m1 ∧
      (process_callback_on m2
        (fetch_obo_register m1 g state scopes resource code_verifier).2
        state (.ok tok)).1 = .ok tok ∧
      dictGet (process_callback_on m2
        (fetch_obo_register m1 g state scopes resource code_verifier).2
        state (.ok tok)).2.pending_auths state = none ∧
      (∀ (m m' : PizzaAuthManager) (g' : ModuleState) (state' : String)
          (x : Except String OAuthToken),
        process_callback_on m g' state' x =
          process_callback_on m' g' state' x) := by
  have hfind : dictGet
      (register_pending g state scopes resource code_verifier).pending_auths
      state = some [Py.scopes scopes, Py.ostr resource, Py.fut state,
        Py.str code_verifier] := dictGet_dictSet_self _ _ _
  have hfut : dictGet
      (register_pending g state scopes resource code_verifier).futures
      state = some .pending := dictGet_dictSet_self _ _ _
  have hdone : futDone
      { register_pending g state scopes resource code_verifier with
        pending_auths := dictPop
          (register_pending g state scopes resource code_verifier
            ).pending_auths state } state = false := by
    simp [futDone, hfut, FutStatus.done]
  refine ⟨rfl, ?_, ?_, fun _ _ _ _ _ => rfl⟩
  · simp [process_callback_on, fetch_obo_register, process_callback,
      hfind, unpack4, hdone]
  · have hnone : dictGet (dictPop
        (register_pending g state scopes resource code_verifier
          ).pending_auths state) state = none := dictGet_dictPop_self _ _
    simp [process_callback_on, fetch_obo_register, process_callback,
      hfind, unpack4, hdone, futSet, hnone]

/-!
Interleaving model for claim C8: one registered pending authorization,
with the timeout path (thread A) and `process_callback` (thread B)
each invoked exactly once, concurrently.  Under asyncio, code between
`await` points runs atomically, so each thread is a short sequence of
atomic steps over the shared module state.
-/

/-- What the `process_callback` coroutine returns in the race model. -/
inductive CallbackObs
  | token            -- exchange succeeded and the future was fulfilled
  | invalidState     -- "Invalid state or no pending authorization."
  | alreadyCompleted -- "Authorization already completed."
  | setResultFailed  -- asyncio.InvalidStateError from `set_result`
  | unpackError
deriving DecidableEq, Repr

/-- Interleaving state for the timeout/callback race on one pending
authorization: the shared module state, each coroutine's program
counter, both observations, the future reference the callback holds
between its pop and its `set_result`, and a count of resolutions
(transitions of a future out of `pending`). -/
structure RaceState where
  g : ModuleState
  pcA : Nat
  pcB : Nat
  callerObs : Option CallerObs
  cbObs : Option CallbackObs
  heldFut : Option String
  resolutions : Nat
deriving DecidableEq, Repr

/-- One atomic step of the suspended caller's coroutine (thread A).
pcA 0 is the timeout moment inside `asyncio.wait_for`: if the future
is already done, the caller just observes its outcome (no timeout
fires); otherwise `wait_for` cancels the future and raises
`TimeoutError`.  pcA 1 is the `except asyncio.TimeoutError` block of
`_fetch_obo_token` (lines 556-562), i.e. `timeout_handler`.  (The
handler's own `future.cancel()` is unreachable for the four-element
entries the program stores, so counting resolutions inside it is not
needed.) -/
def stepA (state : String) (s : RaceState) : RaceState :=
  match s.pcA with
  | 0 =>
      match dictGet s.g.futures state with
      | some .doneResult => { s with pcA := 2, callerObs := some .success }
      | some .doneError =>
          { s with pcA := 2, callerObs := some .errorFromFuture }
      | _ =>
          { s with pcA := 1, g := futSet s.g state FutStatus.cancelled,
                   resolutions := s.resolutions + 1 }
  | 1 =>
      let r := timeout_handler s.g state
      { s with pcA := 2, g := r.2, callerObs := some r.1 }
  | _ => s

/-- One atomic step of the `process_callback` coroutine (thread B).
pcB 0 is the synchronous prefix up to the `await` of the token
exchange: state lookup, pop, four-name unpack, `future.done()` check.
pcB 1 is the exchange completing (successfully, in this scenario).
pcB 2 is `future.set_result(oauth_token)`: it raises
`asyncio.InvalidStateError` if the future was cancelled in the
meantime (and the recovery `set_exception` then raises likewise). -/
def stepB (state : String) (s : RaceState) : RaceState :=
  match s.pcB with
  | 0 =>
      match dictGet s.g.pending_auths state with
      | none => { s with pcB := 3, cbObs := some .invalidState }
      | some entry =>
          let g1 : ModuleState :=
            { s.g with pending_auths := dictPop s.g.pending_auths state }
          match unpack4 entry with
          | .error _ =>
              { s with pcB := 3, g := g1, cbObs := some .unpackError }
          | .ok (_, _, f, _) =>
              match f with
              | .fut fid =>
                  if futDone g1 fid then
                    { s with pcB := 3, g := g1,
                             cbObs := some .alreadyCompleted }
                  else { s with pcB := 1, g := g1, heldFut := some fid }
              | _ => { s with pcB := 3, g := g1, cbObs := some .unpackError }
  | 1 => { s with pcB := 2 }
  | 2 =>
      match s.heldFut with
      | some fid =>
          if futDone s.g fid then
            { s with pcB := 3, cbObs := some .setResultFailed }
          else
            { s with pcB := 3, g := futSet s.g fid FutStatus.doneResult,
                     cbObs := some .token,
                     resolutions := s.resolutions + 1 }
      | none => { s with pcB := 3, cbObs := some .setResultFailed }
  | _ => s

/-- Run an interleaving: `true` schedules thread A, `false` thread B. -/
def runRace (state : String) (sched : List Bool) (s : RaceState) :
    RaceState :=
  match sched with
  | [] => s
  | b :: rest =>
      runRace state rest (if b then stepA state s else stepB state s)

/-- Initial race state: one authorization registered under "st8". -/
def raceInit : RaceState :=
  { g := register_pending ⟨[], []⟩ "st8" ["order:write"]
      (some "pizza_api") "ver8",
    pcA := 0, pcB := 0, callerObs := none, cbObs := none,
    heldFut := none, resolutions := 0 }

/-- All interleavings of thread A's two steps with thread B's three
steps. -/
def raceSchedules : List (List Bool) :=
  [[true, true, false, false, false],
   [true, false, true, false, false],
   [true, false, false, true, false],
   [true, false, false, false, true],
   [false, true, true, false, false],
   [false, true, false, true, false],
   [false, true, false, false, true],
   [false, false, true, true, false],
   [false, false, true, false, true],
   [false, false, false, true, true]]

/-- Claim C8's first half holds in every interleaving — the future is
resolved exactly once — but its second half fails: in the interleaving
where the timeout handler's `except` block runs before
`process_callback` pops the entry, the suspended caller observes
`ValueError: too many values to unpack` (from the three-name unpack of
the four-element entry), which is neither success nor the timeout
signal.  Interleavings in which the callback wins cleanly (success)
and in which the "already completed" guard fires (timeout observed by
the caller) are also exhibited. -/
theorem claim8_code_eval :
    (raceSchedules.all (fun sched =>
        (runRace "st8" sched raceInit).resolutions == 1)) = true ∧
      (runRace "st8" [true, true, false, false, false]
          raceInit).callerObs = some (.pyError .valueErrorUnpack) ∧
      (runRace "st8" [false, false, false, true, true]
          raceInit).callerObs = some .success ∧
      (runRace "st8" [true, false, true, false, false]
          raceInit).callerObs = some .timeoutNone ∧
      (runRace "st8" [true, false, true, false, false]
          raceInit).cbObs = some .alreadyCompleted := by
  decide

end PizzaAgent

namespace Autogen

/-- `AuthConfig` of `pizza-agent-autogen/sdk/auth.py`: `resource` is a
required `str`. -/
structure AuthConfig where
  scopes : List String
  token_type : OAuthTokenType := .CLIENT_TOKEN
  resource : String
deriving DecidableEq, Repr

/-- The cache key built by the autogen `TokenManager`:
`(frozenset(config.scopes), config.token_type)` — the resource is NOT
part of the key. -/
structure CacheKey where
  scopes : List String
  token_type : OAuthTokenType
deriving DecidableEq, Repr

/-- Python dict key equality for the autogen cache key. -/
def keyBEq (k1 k2 : CacheKey) : Bool :=
  scopesEqv k1.scopes k2.scopes && k1.token_type == k2.token_type

/-- The cache key of an autogen config: scopes frozenset and token
type only. -/
def AuthConfig.key (c : AuthConfig) : CacheKey :=
  ⟨c.scopes, c.token_type⟩

/-- Unfolded characterisation of autogen cache-key equality. -/
theorem keyBEq_iff_autogen {k1 k2 : CacheKey} :
    keyBEq k1 k2 = true ↔ (∀ s, s ∈ k1.scopes ↔ s ∈ k2.scopes) ∧
      k1.token_type = k2.token_type := by
  simp [keyBEq, scopesEqv_iff]

/-- Autogen cache-key equality is symmetric. -/
theorem keyBEq_symm_autogen (k1 k2 : CacheKey) (h : keyBEq k1 k2 = true) :
    keyBEq k2 k1 = true := by
  rcases keyBEq_iff_autogen.mp h with ⟨hs, ht⟩
  exact keyBEq_iff_autogen.mpr ⟨fun s => (hs s).symm, ht.symm⟩

/-- Autogen cache-key equality is transitive. -/
theorem keyBEq_trans_autogen (k1 k2 k3 : CacheKey) (h1 : keyBEq k1 k2 = true)
    (h2 : keyBEq k2 k3 = true) : keyBEq k1 k3 = true := by
  rcases keyBEq_iff_autogen.mp h1 with ⟨hs1, ht1⟩
  rcases keyBEq_iff_autogen.mp h2 with ⟨hs2, ht2⟩
  exact keyBEq_iff_autogen.mpr ⟨fun s => (hs1 s).trans (hs2 s), ht1.trans ht2⟩

/-- Autogen `TokenManager` state. -/
structure TokenManager where
  token_store : List (CacheKey × OAuthToken × Int)
  maxsize : Nat := 1000
  ttl : Int := 3600
deriving DecidableEq, Repr

/-- Autogen `TokenManager.add_token`: key = (frozenset(scopes),
token_type). -/
def TokenManager.add_token (m : TokenManager) (config : AuthConfig)
    (token : OAuthToken) (now : Int) : TokenManager :=
  { m with token_store :=
      TTL.set keyBEq m.token_store m.ttl m.maxsize config.key token now }

/-- Autogen `TokenManager.get_token` (lines 96-104): same behaviour as
the pizza-agent one — pops the entry when the stored token is expired
but still returns that token. -/
def TokenManager.get_token (m : TokenManager) (config : AuthConfig)
    (now : Int) : Option OAuthToken × TokenManager :=
  let key := config.key
  match TTL.get keyBEq m.token_store m.ttl key now with
  | some token =>
      if token.is_expired now then
        (some token,
          { m with token_store := TTL.pop keyBEq m.token_store key })
      else (some token, m)
  | none => (none, m)

/-- Unfolding equation for the autogen `TokenManager.get_token`. -/
theorem get_token_def_autogen (m : TokenManager) (cfg : AuthConfig)
    (now : Int) : m.get_token cfg now =
      match TTL.get keyBEq m.token_store m.ttl cfg.key now with
      | some token =>
          if token.is_expired now then
            (some token,
              { m with token_store := TTL.pop keyBEq m.token_store cfg.key })
          else (some token, m)
      | none => (none, m) := rfl

/-- A pending-authorization entry of the autogen `AuthManager`:
`(config.scopes, config.resource, future, code_verifier)`, stored and
unpacked consistently as a four-tuple in this module. -/
structure PendingEntry where
  scopes : List String
  resource : String
  fut : String
  code_verifier : String
deriving DecidableEq, Repr

/-- The mutable state of an autogen `AuthManager` instance relevant to
the delegated flow: the per-instance `_pending_auths` table, the
`_pkce_data` recovery records kept past timeouts (line 157), the
resolution states of the created futures, and the token cache. -/
structure AuthManagerState where
  pending_auths : List (String × PendingEntry)
  pkce_data : List (String × (List String × String × String))
  futures : List (String × FutStatus)
  token_manager : TokenManager
deriving DecidableEq, Repr

/-- `Future.done()` for the future created under a state string. -/
def futDone (st : AuthManagerState) (fid : String) : Bool :=
  match dictGet st.futures fid with
  | some s => s.done
  | none => false

/-- Resolve, cancel or fail the future created under a state string. -/
def futSet (st : AuthManagerState) (fid : String) (s : FutStatus) :
    AuthManagerState :=
  { st with futures := dictSet st.futures fid s }

/-- The registration step of `_trigger_user_authorization` (lines
424-434): create a pending future, store the pending four-tuple, and
duplicate `(scopes, resource, code_verifier)` in `_pkce_data` for
late-callback recovery. -/
def trigger_register (st : AuthManagerState) (state : String)
    (scopes : List String) (resource : String) (code_verifier : String) :
    AuthManagerState :=
  { st with
    pending_auths := dictSet st.pending_auths state
      ⟨scopes, resource, state, code_verifier⟩,
    pkce_data := dictSet st.pkce_data state (scopes, resource, code_verifier),
    futures := dictSet st.futures state .pending }

/-- The `asyncio.TimeoutError` path of `_trigger_user_authorization`
(lines 474-480): `wait_for` cancels the still-pending future; the
handler pops the pending entry with `pop(state, None)`, intentionally
keeps `_pkce_data[state]`, and raises a timeout `Exception` to the
caller. -/
def trigger_timeout (st : AuthManagerState) (state : String) :
    AuthManagerState :=
  let st := if futDone st state then st else futSet st state .cancelled
  { st with pending_auths := dictPop st.pending_auths state }

/-- Errors raised by the autogen `process_callback`. -/
inductive CbErr
  | invalidState               -- "Invalid state or no pending authorization."
  | alreadyCompleted           -- "Authorization already completed."
  | lateExchangeFailed (e : String)
  | exchangeError (e : String)
deriving DecidableEq, Repr

/-- Autogen `AuthManager.process_callback` (lines 482-532), with the
token-endpoint exchange `_fetch_oauth_token` passed in as the function
`exchange` of the scopes, resource, authorization code and PKCE
verifier it would be called with.  Pops the pending entry; when none
exists, attempts late-callback recovery from the retained `_pkce_data`
record (popping it, exchanging with its data, and returning the token
WITHOUT resuming any future and WITHOUT caching); when no record
exists either, raises the invalid-state error; for a live entry whose
future is done, raises "Authorization already completed."; otherwise
exchanges and resolves the future with the outcome. -/
def process_callback (st : AuthManagerState) (state code : String)
    (exchange : List String → String → String → String →
      Except String OAuthToken) :
    Except CbErr OAuthToken × AuthManagerState :=
  match dictGet st.pending_auths state with
  | none =>
      match dictGet st.pkce_data state with
      | some (scopes, resource, code_verifier) =>
          let st1 : AuthManagerState :=
            { st with pkce_data := dictPop st.pkce_data state }
          match exchange scopes resource code code_verifier with
          | .ok tok => (.ok tok, st1)
          | .error e => (.error (.lateExchangeFailed e), st1)
      | none => (.error .invalidState, st)
  | some entry =>
      let st1 : AuthManagerState :=
        { st with pending_auths := dictPop st.pending_auths state }
      if futDone st1 entry.fut then (.error .alreadyCompleted, st1)
      else
        match exchange entry.scopes entry.resource code entry.code_verifier with
        | .ok tok => (.ok tok, futSet st1 entry.fut .doneResult)
        | .error e => (.error (.exchangeError e), futSet st1 entry.fut .doneError)

/-- Python truthiness of `self.agent_token` /
`self.agent_token.get('access_token')` in the autogen module. -/
def agentTokenFalsy : Option PizzaAgent.AgentToken → Bool
  | none => true
  | some t => t.access_token == ""

/-- The OBO branch of the autogen `_fetch_oauth_token` (lines
248-290): the exchange requires an authorization code AND a usable
agent token — `if not self.agent_token or not
self.agent_token.get('access_token'): raise ValueError(...)` — before
the network call (whose outcome is `net`) is even attempted. -/
def fetch_oauth_token_obo (agent_token : Option PizzaAgent.AgentToken)
    (code : Option String) (net : Except String OAuthToken) :
    Except String OAuthToken :=
  match code with
  | none => .error "'code' is required for OBO token"
  | some _ =>
      if agentTokenFalsy agent_token then
        .error "Agent token is required for OBO token exchange but is not available"
      else net

/-- Post-timeout state for claim C5: an authorization for state "st5"
was registered and timed out, leaving no pending entry but a retained
PKCE record. -/
def st5 : AuthManagerState :=
  trigger_timeout
    (trigger_register ⟨[], [], [], ⟨[], 1000, 3600⟩⟩ "st5"
      ["order:write"] "pizza_api" "ver5") "st5"

/-- Concrete token obtained by the late exchange in claim C5. -/
def tok5 : OAuthToken :=
  { access_token := "tok5-access", expires_at := some 9000 }

/-- Concrete exchange outcome for claim C5. -/
def ex5 : List String → String → String → String →
    Except String OAuthToken := fun _ _ _ _ => .ok tok5

/-- Claim C5 is false as stated on its caching conjunct: after a
timeout, `process_callback` with the retained recovery record performs
the exchange and returns the token, but the token is NOT cached — the
token cache still misses for the correct config afterwards. -/
theorem claim5_counterexample :
    dictGet st5.pending_auths "st5" = none ∧
      dictGet st5.pkce_data "st5" =
        some (["order:write"], "pizza_api", "ver5") ∧
      (process_callback st5 "st5" "code5" ex5).1 = .ok tok5 ∧
      ((process_callback st5 "st5" "code5" ex5).2.token_manager.get_token
        ⟨["order:write"], .OBO_TOKEN, "pizza_api"⟩ 0).1 = none := by
  decide

/-- Claim C5 (amended): when `process_callback(state, code)` finds no
pending entry but a retained recovery record
{scopes, resource, code_verifier} exists for the state, the token
exchange is performed with exactly that record's data, no suspended
caller is resumed (no future is touched), the record is consumed, and
the resulting token is returned to the HTTP caller — but it is NOT
added to the token cache. -/
theorem claim5_theorem (st : AuthManagerState) (state code : String)
    (exchange : List String → String → String → String →
      Except String OAuthToken)
    (scopes : List String) (resource verifier : String) (tok : OAuthToken)
    (hpend : dictGet st.pending_auths state = none)
    (hpkce : dictGet st.pkce_data state = some (scopes, resource, verifier))
    (hex : exchange scopes resource code verifier = .ok tok) :
    (process_callback st state code exchange).1 = .ok tok ∧
      (process_callback st state code exchange).2.futures = st.futures ∧
      (process_callback st state code exchange).2.token_manager =
        st.token_manager ∧
      dictGet (process_callback st state code exchange).2.pkce_data
        state = none := by
  simp [process_callback, hpend, hpkce, hex, dictGet_dictPop_self]

/-- Witness for claim C5's amended theorem at the concrete post-timeout
state `st5`. -/
theorem claim5_witness :
    (process_callback st5 "st5" "code5" ex5).1 = .ok tok5 ∧
      (process_callback st5 "st5" "code5" ex5).2.futures = st5.futures ∧
      (process_callback st5 "st5" "code5" ex5).2.token_manager =
        st5.token_manager ∧
      dictGet (process_callback st5 "st5" "code5" ex5).2.pkce_data
        "st5" = none :=
  claim5_theorem st5 "st5" "code5" ex5 ["order:write"] "pizza_api"
    "ver5" tok5 (by decide) (by decide) (by decide)

end Autogen

/-- Concrete configs for claim C6: identical scopes and grant kind,
different resources. -/
def cfg6a : Autogen.AuthConfig :=
  { scopes := ["menu:read"], token_type := .CLIENT_TOKEN,
    resource := "pizza_api" }

/-- Second concrete config for claim C6, differing only in resource. -/
def cfg6b : Autogen.AuthConfig :=
  { scopes := ["menu:read"], token_type := .CLIENT_TOKEN,
    resource := "other_api" }

/-- Concrete unexpired token for claim C6. -/
def tok6 : OAuthToken :=
  { access_token := "tok6-access", expires_at := some 100000 }

/-- Claim C6 is false as stated for the autogen `TokenManager`: its
cache key omits the resource, so two configs that differ only in
resource occupy the SAME slot — a token added under resource
"pizza_api" is returned by `get_token` under resource "other_api". -/
theorem claim6_counterexample :
    cfg6a.resource ≠ cfg6b.resource ∧
      ((Autogen.TokenManager.add_token ⟨[], 1000, 3600⟩ cfg6a tok6 0
        ).get_token cfg6b 0).1 = some tok6 := by decide

/-- Claim C6 (amended): the pizza-agent `TokenManager` keys the cache
by the triple (scope-set order-insensitively, grant kind, resource):
configs equal up to scope order with equal grant kind and resource
share a slot, and configs that differ in resource occupy distinct
slots.  The autogen `TokenManager` keys only by (scope-set, grant
kind): a token added under one resource is returned for any config
with the same scope set and grant kind, whatever its resource. -/
theorem claim6_theorem :
    (∀ (m : PizzaAgent.TokenManager) (c1 c2 : PizzaAgent.AuthConfig)
        (tok : OAuthToken) (now : Int),
      scopesEqv c1.scopes c2.scopes = true →
      c1.token_type = c2.token_type → c1.resource = c2.resource →
      tok.is_expired now = false → 0 < m.ttl →
      ((m.add_token c1 tok now).get_token c2 now).1 = some tok) ∧
    (∀ (maxsize : Nat) (ttl : Int) (c1 c2 : PizzaAgent.AuthConfig)
        (tok : OAuthToken) (now : Int),
      c1.resource ≠ c2.resource →
      (((PizzaAgent.TokenManager.mk [] maxsize ttl).add_token c1 tok now
        ).get_token c2 now).1 = none) ∧
    (∀ (m : Autogen.TokenManager) (c1 c2 : Autogen.AuthConfig)
        (tok : OAuthToken) (now : Int),
      scopesEqv c1.scopes c2.scopes = true →
      c1.token_type = c2.token_type →
      tok.is_expired now = false → 0 < m.ttl →
      ((m.add_token c1 tok now).get_token c2 now).1 = some tok) := by
  refine ⟨?_, ?_, ?_⟩
  · intro m c1 c2 tok now hs ht hr hexp httl
    have hbeq : PizzaAgent.keyBEq c1.key c2.key = true :=
      PizzaAgent.keyBEq_iff.mpr ⟨fun s => scopesEqv_iff.mp hs s, ht, hr⟩
    rw [PizzaAgent.TokenManager.get_token_def]
    have hstore : (m.add_token c1 tok now).token_store =
        TTL.set PizzaAgent.keyBEq m.token_store m.ttl m.maxsize c1.key
          tok now := rfl
    have httlEq : (m.add_token c1 tok now).ttl = m.ttl := rfl
    rw [hstore, httlEq,
      TTL.get_set_of_beq PizzaAgent.keyBEq PizzaAgent.keyBEq_symm
        PizzaAgent.keyBEq_trans m.token_store m.ttl m.maxsize
        c1.key c2.key tok now hbeq httl]
    simp [hexp]
  · intro maxsize ttl c1 c2 tok now hne
    have hbeq : PizzaAgent.keyBEq c1.key c2.key = false := by
      cases h : PizzaAgent.keyBEq c1.key c2.key with
      | false => rfl
      | true => exact absurd (PizzaAgent.keyBEq_iff.mp h).2.2 hne
    rw [PizzaAgent.TokenManager.get_token_def]
    have hstore :
        ((PizzaAgent.TokenManager.mk [] maxsize ttl).add_token c1 tok now
          ).token_store =
        TTL.set PizzaAgent.keyBEq [] ttl maxsize c1.key tok now := rfl
    have httlEq :
        ((PizzaAgent.TokenManager.mk [] maxsize ttl).add_token c1 tok now
          ).ttl = ttl := rfl
    rw [hstore, httlEq,
      TTL.get_set_nil_of_not_beq PizzaAgent.keyBEq ttl maxsize
        c1.key c2.key tok now hbeq]
  · intro m c1 c2 tok now hs ht hexp httl
    have hbeq : Autogen.keyBEq c1.key c2.key = true :=
      Autogen.keyBEq_iff_autogen.mpr ⟨fun s => scopesEqv_iff.mp hs s, ht⟩
    rw [Autogen.get_token_def_autogen]
    have hstore : (m.add_token c1 tok now).token_store =
        TTL.set Autogen.keyBEq m.token_store m.ttl m.maxsize c1.key
          tok now := rfl
    have httlEq : (m.add_token c1 tok now).ttl = m.ttl := rfl
    rw [hstore, httlEq,
      TTL.get_set_of_beq Autogen.keyBEq Autogen.keyBEq_symm_autogen
        Autogen.keyBEq_trans_autogen m.token_store m.ttl m.maxsize
        c1.key c2.key tok now hbeq httl]
    simp [hexp]

/-- Witness for claim C6's amended theorem: scope order-insensitivity
and resource separation in the pizza-agent store, resource sharing in
the autogen store, each at concrete inputs. -/
theorem claim6_witness :
    (((PizzaAgent.TokenManager.mk [] 1000 3600).add_token
        ⟨["a", "b"], .CLIENT_TOKEN, some "r"⟩ tok6 0).get_token
        ⟨["b", "a"], .CLIENT_TOKEN, some "r"⟩ 0).1 = some tok6 ∧
    (((PizzaAgent.TokenManager.mk [] 1000 3600).add_token
        ⟨["a"], .CLIENT_TOKEN, some "r1"⟩ tok6 0).get_token
        ⟨["a"], .CLIENT_TOKEN, some "r2"⟩ 0).1 = none ∧
    (((Autogen.TokenManager.mk [] 1000 3600).add_token
        ⟨["a"], .CLIENT_TOKEN, "r1"⟩ tok6 0).get_token
        ⟨["a"], .CLIENT_TOKEN, "r2"⟩ 0).1 = some tok6 :=
  ⟨claim6_theorem.1 _ ⟨["a", "b"], .CLIENT_TOKEN, some "r"⟩
      ⟨["b", "a"], .CLIENT_TOKEN, some "r"⟩ tok6 0 (by decide) rfl rfl
      (by decide) (by decide),
    claim6_theorem.2.1 1000 3600 ⟨["a"], .CLIENT_TOKEN, some "r1"⟩
      ⟨["a"], .CLIENT_TOKEN, some "r2"⟩ tok6 0 (by decide),
    claim6_theorem.2.2 _ ⟨["a"], .CLIENT_TOKEN, "r1"⟩
      ⟨["a"], .CLIENT_TOKEN, "r2"⟩ tok6 0 (by decide) rfl
      (by decide) (by decide)⟩

/-- Concrete token for claim C7. -/
def tok7 : OAuthToken :=
  { access_token := "tok7-access", expires_at := some 9000 }

/-- Claim C7 is false as stated on its last conjunct, for the autogen
module its sources cite: with no agent token available, the autogen
OBO exchange raises "Agent token is required for OBO token exchange
but is not available" instead of proceeding without an actor token, so
delegated consent flows do NOT still function there. -/
theorem claim7_counterexample :
    Autogen.fetch_oauth_token_obo none (some "code7") (.ok tok7) =
      .error
        "Agent token is required for OBO token exchange but is not available"
      ∧ Autogen.fetch_oauth_token_obo none (some "code7") (.ok tok7) ≠
        .ok tok7 := by
  decide

/-- Claim C7 (amended): if agent identity authentication fails at any
step, `authenticate_agent_with_basic_auth` returns `None` rather than
raising (it succeeds exactly when step 1 yields a truthy flow id,
steps 2-4 succeed over HTTP, and step 3 yields a truthy code); broker
construction still succeeds with no agent token stored; in the
pizza-agent module the broker keeps operating — client-credentials
requests are served with no actor token attached, and the delegated
consent exchange functions with no actor token attached.  In the
autogen module, however, the OBO exchange refuses to run without a
usable agent token; it proceeds (attaching the actor token) only when
one is present. -/
theorem claim7_theorem :
    (∀ (ac : PizzaAgent.AgentConfig) (env : PizzaAgent.AgentAuthEnv)
        (tok : PizzaAgent.AgentToken),
      PizzaAgent.authenticate_agent_with_basic_auth (some ac) env =
          some tok ↔
        ∃ fid aid pid code,
          env.step1 = .ok (fid, aid) ∧ strFalsy fid = false ∧
          env.step2 = .ok pid ∧ env.step3 = .ok code ∧
          strFalsy code = false ∧ env.step4 = .ok tok) ∧
    (∀ (ac : Option PizzaAgent.AgentConfig)
        (env : PizzaAgent.AgentAuthEnv),
      PizzaAgent.authenticate_agent_with_basic_auth ac env = none →
      (PizzaAgent.mkPizzaAuthManager ac env).agent_token = none ∧
        (PizzaAgent.mkPizzaAuthManager ac env).instance_pending_auths
          = []) ∧
    (∀ (mx : Nat) (ttl : Int) (cfg : PizzaAgent.AuthConfig) (now : Int)
        (refreshNet : Except String OAuthToken)
        (oboF : Except String (Option OAuthToken)) (tok : OAuthToken),
      cfg.token_type = .CLIENT_TOKEN →
      PizzaAgent.client_credentials_params.actor_token = none ∧
        (PizzaAgent.get_oauth_token ⟨[], mx, ttl⟩ cfg now refreshNet
          oboF (.ok tok)).1 = .ok (some tok)) ∧
    (∀ (g : PizzaAgent.ModuleState) (state : String) (sc : List String)
        (r : Option String) (v : String) (tok : OAuthToken),
      PizzaAgent.obo_exchange_params none =
          ⟨"authorization_code", none⟩ ∧
        (PizzaAgent.process_callback
          (PizzaAgent.register_pending g state sc r v) state
          (.ok tok)).1 = .ok tok) ∧
    (∀ (t : PizzaAgent.AgentToken) (c : String)
        (net : Except String OAuthToken),
      Autogen.agentTokenFalsy (some t) = false →
      Autogen.fetch_oauth_token_obo (some t) (some c) net = net) := by
  refine ⟨?_, ?_, ?_, ?_, ?_⟩
  · intro ac env tok
    obtain ⟨s1, s2, s3, s4⟩ := env
    constructor
    · intro h
      cases s1 with
      | error e =>
        simp [PizzaAgent.authenticate_agent_with_basic_auth] at h
      | ok p =>
        obtain ⟨fid, aid⟩ := p
        by_cases hf : strFalsy fid = true
        · simp [PizzaAgent.authenticate_agent_with_basic_auth, hf] at h
        · cases s2 with
          | error e =>
            simp [PizzaAgent.authenticate_agent_with_basic_auth, hf] at h
          | ok pid =>
            cases s3 with
            | error e =>
              simp [PizzaAgent.authenticate_agent_with_basic_auth, hf] at h
            | ok code =>
              by_cases hc : strFalsy code = true
              · simp [PizzaAgent.authenticate_agent_with_basic_auth,
                  hf, hc] at h
              · cases s4 with
                | error e =>
                  simp [PizzaAgent.authenticate_agent_with_basic_auth,
                    hf, hc] at h
                | ok t =>
                  have ht : t = tok := by
                    simpa [PizzaAgent.authenticate_agent_with_basic_auth,
                      hf, hc] using h
                  subst ht
                  exact ⟨fid, aid, pid, code, rfl, by simpa using hf,
                    rfl, rfl, by simpa using hc, rfl⟩
    · rintro ⟨fid, aid, pid, code, h1, h2, h3, h4, h5, h6⟩
      cases h1; cases h3; cases h4; cases h6
      simp [PizzaAgent.authenticate_agent_with_basic_auth, h2, h5]
  · intro ac env h
    cases ac with
    | none => exact ⟨rfl, rfl⟩
    | some ac =>
      exact ⟨by simpa [PizzaAgent.mkPizzaAuthManager] using h, rfl⟩
  · intro mx ttl cfg now refreshNet oboF tok htype
    refine ⟨rfl, ?_⟩
    simp [PizzaAgent.get_oauth_token, PizzaAgent.TokenManager.get_token,
      TTL.get, htype]
  · intro g state sc r v tok
    refine ⟨rfl, ?_⟩
    have hfind : dictGet
        (PizzaAgent.register_pending g state sc r v).pending_auths state =
        some [PizzaAgent.Py.scopes sc, PizzaAgent.Py.ostr r,
          PizzaAgent.Py.fut state, PizzaAgent.Py.str v] :=
      dictGet_dictSet_self _ _ _
    have hfut : dictGet
        (PizzaAgent.register_pending g state sc r v).futures state =
        some .pending := dictGet_dictSet_self _ _ _
    have hdone : PizzaAgent.futDone
        { PizzaAgent.register_pending g state sc r v with
          pending_auths := dictPop
            (PizzaAgent.register_pending g state sc r v).pending_auths
            state } state = false := by
      simp [PizzaAgent.futDone, hfut, FutStatus.done]
    simp [PizzaAgent.process_callback, hfind, PizzaAgent.unpack4, hdone]
  · intro t c net hfalsy
    simp [Autogen.fetch_oauth_token_obo, hfalsy]

/-- Concrete agent config for claim C7's witness. -/
def ac7 : PizzaAgent.AgentConfig :=
  { agent_name := "pizza-agent", agent_id := "agent-id-7",
    agent_secret := "agent-secret-7" }

/-- An environment in which every step of agent authentication
succeeds. -/
def env7ok : PizzaAgent.AgentAuthEnv :=
  { step1 := .ok (some "flow7", some "idf7"), step2 := .ok (some "pwd7"),
    step3 := .ok (some "code7"), step4 := .ok ⟨"agent-token-7"⟩ }

/-- An environment in which the very first HTTP call fails. -/
def env7fail : PizzaAgent.AgentAuthEnv :=
  { step1 := .error "connection refused", step2 := .ok none,
    step3 := .ok none, step4 := .error "unreached" }

/-- Witness for claim C7's amended theorem at concrete inputs. -/
theorem claim7_witness :
    PizzaAgent.authenticate_agent_with_basic_auth (some ac7) env7ok =
        some ⟨"agent-token-7"⟩ ∧
      (PizzaAgent.mkPizzaAuthManager (some ac7) env7fail).agent_token =
        none ∧
      (PizzaAgent.get_oauth_token ⟨[], 1000, 3600⟩
        ⟨["menu:read"], .CLIENT_TOKEN, some "pizza_api"⟩ 0 (.error "e")
        (.ok none) (.ok tok7)).1 = .ok (some tok7) ∧
      Autogen.fetch_oauth_token_obo (some ⟨"at7"⟩) (some "c7")
        (.ok tok7) = .ok tok7 :=
  ⟨(claim7_theorem.1 ac7 env7ok ⟨"agent-token-7"⟩).mpr
      ⟨some "flow7", some "idf7", some "pwd7", some "code7", rfl,
        by decide, rfl, rfl, by decide, rfl⟩,
    (claim7_theorem.2.1 (some ac7) env7fail (by decide)).1,
    (claim7_theorem.2.2.1 1000 3600
      ⟨["menu:read"], .CLIENT_TOKEN, some "pizza_api"⟩ 0 (.error "e")
      (.ok none) tok7 rfl).2,
    claim7_theorem.2.2.2.2 ⟨"at7"⟩ "c7" (.ok tok7) (by decide)⟩

/-!
The PKCE generator `_generate_pkce_pair`, identical in both auth
modules.  The library calls it makes are modelled faithfully:
`hashlib.sha256` as SHA-256 (FIPS 180-4) over byte lists with 32-bit
words as `Nat` reduced mod 2^32, and `base64.urlsafe_b64encode` as the
RFC 4648 URL-safe encoding with `=` padding; `.rstrip('=')` strips the
trailing padding.  The 32 random bytes produced by
`secrets.token_bytes(32)` are the explicit input.
-/

namespace SHA256

/-- Reduction to a 32-bit word. -/
def w32 (x : Nat) : Nat := x % 4294967296

/-- 32-bit right rotation. -/
def rotr (n x : Nat) : Nat := w32 (x / 2 ^ n + x % 2 ^ n * 2 ^ (32 - n))

/-- Logical right shift. -/
def shr (n x : Nat) : Nat := x / 2 ^ n

/-- 32-bit complement (xor with all ones). -/
def notW (x : Nat) : Nat := x ^^^ 4294967295

/-- The SHA-256 choice function. -/
def ch (x y z : Nat) : Nat := (x &&& y) ^^^ (notW x &&& z)

/-- The SHA-256 majority function. -/
def maj (x y z : Nat) : Nat := (x &&& y) ^^^ (x &&& z) ^^^ (y &&& z)

/-- Big sigma-0. -/
def bigSigma0 (x : Nat) : Nat := rotr 2 x ^^^ rotr 13 x ^^^ rotr 22 x

/-- Big sigma-1. -/
def bigSigma1 (x : Nat) : Nat := rotr 6 x ^^^ rotr 11 x ^^^ rotr 25 x

/-- Small sigma-0. -/
def smallSigma0 (x : Nat) : Nat := rotr 7 x ^^^ rotr 18 x ^^^ shr 3 x

/-- Small sigma-1. -/
def smallSigma1 (x : Nat) : Nat := rotr 17 x ^^^ rotr 19 x ^^^ shr 10 x

/-- The 64 SHA-256 round constants, in decimal. -/
def K : List Nat :=
  [1116352408, 1899447441, 3049323471, 3921009573, 961987163,
   1508970993, 2453635748, 2870763221, 3624381080, 310598401,
   607225278, 1426881987, 1925078388, 2162078206, 2614888103,
   3248222580, 3835390401, 4022224774, 264347078, 604807628,
   770255983, 1249150122, 1555081692, 1996064986, 2554220882,
   2821834349, 2952996808, 3210313671, 3336571891, 3584528711,
   113926993, 338241895, 666307205, 773529912, 1294757372,
   1396182291, 1695183700, 1986661051, 2177026350, 2456956037,
   2730485921, 2820302411, 3259730800, 3345764771, 3516065817,
   3600352804, 4094571909, 275423344, 430227734, 506948616,
   659060556, 883997877, 958139571, 1322822218, 1537002063,
   1747873779, 1955562222, 2024104815, 2227730452, 2361852424,
   2428436474, 2756734187, 3204031479, 3329325298]

/-- The SHA-256 initial hash value, in decimal. -/
def H0 : List Nat :=
  [1779033703, 3144134277, 1013904242, 2773480762, 1359893119,
   2600822924, 528734635, 1541459225]

/-- A number as `n` big-endian bytes. -/
def beBytes : Nat → Nat → List Nat
  | 0, _ => []
  | n + 1, x => beBytes n (x / 256) ++ [x % 256]

/-- SHA-256 message padding: a 0x80 byte, zeros up to 56 mod 64, and
the 8-byte big-endian bit length. -/
def pad (msg : List Nat) : List Nat :=
  let l := msg.length
  let zeros := (64 - (l + 9) % 64) % 64
  msg ++ 128 :: List.replicate zeros 0 ++ beBytes 8 (l * 8)

/-- Bytes to big-endian 32-bit words. -/
def toWords : List Nat → List Nat
  | a :: b :: c :: d :: rest =>
      (a * 16777216 + b * 65536 + c * 256 + d) :: toWords rest
  | _ => []

/-- The 64-word message schedule of one block. -/
def schedule (block : List Nat) : List Nat :=
  (List.range 48).foldl
    (fun w _ =>
      let n := w.length
      w ++ [w32 (smallSigma1 (w.getD (n - 2) 0) + w.getD (n - 7) 0 +
        smallSigma0 (w.getD (n - 15) 0) + w.getD (n - 16) 0)])
    (toWords block)

/-- The SHA-256 compression function on one 64-byte block. -/
def compress (hs : List Nat) (block : List Nat) : List Nat :=
  let ws := schedule block
  let step := fun (st : List Nat) (i : Nat) =>
    match st with
    | [a, b, c, d, e, f, g, h] =>
        let t1 := w32 (h + bigSigma1 e + ch e f g + K.getD i 0 +
          ws.getD i 0)
        let t2 := w32 (bigSigma0 a + maj a b c)
        [w32 (t1 + t2), a, b, c, w32 (d + t1), e, f, g]
    | st => st
  let st := (List.range 64).foldl step hs
  match hs, st with
  | [h0, h1, h2, h3, h4, h5, h6, h7], [a, b, c, d, e, f, g, h] =>
      [w32 (h0 + a), w32 (h1 + b), w32 (h2 + c), w32 (h3 + d),
       w32 (h4 + e), w32 (h5 + f), w32 (h6 + g), w32 (h7 + h)]
  | _, _ => hs

/-- Split into 64-byte blocks. -/
def chunks64 (l : List Nat) : List (List Nat) :=
  if h : l = [] then []
  else l.take 64 :: chunks64 (l.drop 64)
termination_by l.length
decreasing_by
  simp only [List.length_drop]
  have := List.length_pos.mpr h
  omega

/-- Words back to big-endian bytes. -/
def wordsToBytes : List Nat → List Nat
  | [] => []
  | w :: rest =>
      w / 16777216 % 256 :: w / 65536 % 256 :: w / 256 % 256 ::
        w % 256 :: wordsToBytes rest

/-- SHA-256 of a byte list.  (Checked against the FIPS test vectors
for "", "abc", the 448-bit vector and a 1000-byte input during
development.) -/
def sha256 (msg : List Nat) : List Nat :=
  wordsToBytes ((chunks64 (pad msg)).foldl compress H0)

end SHA256

/-- The RFC 4648 URL-safe base64 alphabet used by
`base64.urlsafe_b64encode`; every character is in RFC 7636's
unreserved set. -/
def b64urlAlphabet : List Char :=
  ['A', 'B', 'C', 'D', 'E', 'F', 'G', 'H', 'I', 'J', 'K', 'L', 'M',
   'N', 'O', 'P', 'Q', 'R', 'S', 'T', 'U', 'V', 'W', 'X', 'Y', 'Z',
   'a', 'b', 'c', 'd', 'e', 'f', 'g', 'h', 'i', 'j', 'k', 'l', 'm',
   'n', 'o', 'p', 'q', 'r', 's', 't', 'u', 'v', 'w', 'x', 'y', 'z',
   '0', '1', '2', '3', '4', '5', '6', '7', '8', '9', '-', '_']

/-- Alphabet lookup (6-bit group to character). -/
def b64char (i : Nat) : Char := b64urlAlphabet.getD i 'A'

/-- `base64.urlsafe_b64encode` on a byte list, three bytes to four
characters, `=`-padded.  Division and remainder express the bit
splits: `a / 4 = a >> 2`, `a % 4 * 16 = (a & 3) << 4`, and so on. -/
def urlsafe_b64encode : List Nat → List Char
  | [] => []
  | [a] => [b64char (a / 4), b64char (a % 4 * 16), '=', '=']
  | [a, b] => [b64char (a / 4), b64char (a % 4 * 16 + b / 16),
               b64char (b % 16 * 4), '=']
  | a :: b :: c :: rest =>
      b64char (a / 4) :: b64char (a % 4 * 16 + b / 16) ::
      b64char (b % 16 * 4 + c / 64) :: b64char (c % 64) ::
      urlsafe_b64encode rest

/-- Python `str.rstrip('=')`. -/
def rstripEq (s : List Char) : List Char :=
  (s.reverse.dropWhile (fun c => c == '=')).reverse

/-- UTF-8 encoding of the verifier; its characters are all ASCII, so
this is the code-point byte list. -/
def utf8Encode (s : List Char) : List Nat := s.map Char.toNat

/-- `_generate_pkce_pair` (pizza-agent lines 304-315, autogen lines
196-207): verifier = `urlsafe_b64encode(token_bytes(32))` without
padding; challenge = `urlsafe_b64encode(sha256(verifier.encode()))`
without padding.  (Checked against CPython's output on concrete bytes
during development.) -/
def generate_pkce_pair (randomBytes : List Nat) : List Char × List Char :=
  let code_verifier := rstripEq (urlsafe_b64encode randomBytes)
  let code_challenge := rstripEq (urlsafe_b64encode
    (SHA256.sha256 (utf8Encode code_verifier)))
  (code_verifier, code_challenge)

/-- Alphabet lookups land in the alphabet (the fallback 'A' is itself
in the alphabet). -/
theorem b64char_mem (i : Nat) : b64char i ∈ b64urlAlphabet := by
  unfold b64char
  rcases h : b64urlAlphabet[i]? with _ | c
  · rw [List.getD_eq_getElem?_getD, h]
    decide
  · rw [List.getD_eq_getElem?_getD, h]
    simpa using List.getElem?_mem h

/-- No alphabet lookup is the padding character. -/
theorem b64char_beq_pad (i : Nat) : (b64char i == '=') = false := by
  have h := b64char_mem i
  have hne : b64char i ≠ '=' := by
    intro he
    rw [he] at h
    revert h
    decide
  exact beq_eq_false_iff_ne.mpr hne

/-- Stripping trailing padding distributes over a prefix when the
suffix does not strip to nothing. -/
theorem rstripEq_append (xs ys : List Char) (h : rstripEq ys ≠ []) :
    rstripEq (xs ++ ys) = xs ++ rstripEq ys := by
  unfold rstripEq at h ⊢
  have h2 : ys.reverse.dropWhile (fun c => c == '=') ≠ [] := by
    intro hnil
    exact h (by rw [hnil, List.reverse_nil])
  rw [List.reverse_append, List.dropWhile_append,
    if_neg (by simpa [List.isEmpty_iff] using h2)]
  simp

/-- For byte lists of length 2 mod 3 (as the 32 random verifier bytes
are), the stripped encoding has exactly one padding character removed
and consists of alphabet characters only. -/
theorem rstrip_b64_spec : ∀ l : List Nat, l.length % 3 = 2 →
    (rstripEq (urlsafe_b64encode l)).length = (l.length + 1) / 3 * 4 - 1 ∧
      ∀ c ∈ rstripEq (urlsafe_b64encode l), c ∈ b64urlAlphabet
  | [], h => by simp at h
  | [a], h => by simp at h
  | [a, b], _ => by
      have hx : rstripEq (urlsafe_b64encode [a, b]) =
          [b64char (a / 4), b64char (a % 4 * 16 + b / 16),
            b64char (b % 16 * 4)] := by
        simp [urlsafe_b64encode, rstripEq, List.dropWhile_cons,
          b64char_beq_pad]
      rw [hx]
      refine ⟨by simp, ?_⟩
      intro c hc
      simp only [List.mem_cons, List.not_mem_nil, or_false] at hc
      rcases hc with h1 | h1 | h1 <;> (subst h1; exact b64char_mem _)
  | a :: b :: c :: rest, h => by
      have hr : rest.length % 3 = 2 := by
        simp only [List.length_cons] at h
        omega
      obtain ⟨ihlen, ihmem⟩ := rstrip_b64_spec rest hr
      have henc : urlsafe_b64encode (a :: b :: c :: rest) =
          [b64char (a / 4), b64char (a % 4 * 16 + b / 16),
            b64char (b % 16 * 4 + c / 64), b64char (c % 64)] ++
            urlsafe_b64encode rest := rfl
      have hne : rstripEq (urlsafe_b64encode rest) ≠ [] := by
        intro hnil
        rw [hnil] at ihlen
        simp only [List.length_nil] at ihlen
        omega
      rw [henc, rstripEq_append _ _ hne]
      constructor
      · simp only [List.length_append, List.length_cons,
          List.length_nil, ihlen]
        omega
      · intro ch hch
        rcases List.mem_append.mp hch with hch | hch
        · simp only [List.mem_cons, List.not_mem_nil, or_false] at hch
          rcases hch with h1 | h1 | h1 | h1 <;>
            (subst h1; exact b64char_mem _)
        · exact ihmem ch hch

/-- Claim C9: for every 32-byte random input, `_generate_pkce_pair`
produces a challenge equal to the unpadded URL-safe base64 of the
SHA-256 of the verifier's UTF-8 bytes, and a verifier that is the
unpadded URL-safe base64 of the 32 input bytes — 43 characters long,
drawn from the URL-safe alphabet, within RFC 7636's 43-128 bound.
(The quality of `secrets.token_bytes` as a randomness source is not
formalisable; the input bytes are universally quantified instead.) -/
theorem claim9_theorem (bytes : List Nat) (hlen : bytes.length = 32) :
    (generate_pkce_pair bytes).2 =
        rstripEq (urlsafe_b64encode
          (SHA256.sha256 (utf8Encode (generate_pkce_pair bytes).1))) ∧
      (generate_pkce_pair bytes).1 =
        rstripEq (urlsafe_b64encode bytes) ∧
      (generate_pkce_pair bytes).1.length = 43 ∧
      (∀ c ∈ (generate_pkce_pair bytes).1, c ∈ b64urlAlphabet) ∧
      43 ≤ (generate_pkce_pair bytes).1.length ∧
      (generate_pkce_pair bytes).1.length ≤ 128 := by
  have h2 : bytes.length % 3 = 2 := by rw [hlen]
  obtain ⟨hl, hm⟩ := rstrip_b64_spec bytes h2
  have hfst : (generate_pkce_pair bytes).1 =
      rstripEq (urlsafe_b64encode bytes) := rfl
  have h43 : (generate_pkce_pair bytes).1.length = 43 := by
    rw [hfst, hl, hlen]
  exact ⟨rfl, hfst, h43, by rw [hfst]; exact hm, by omega, by omega⟩

/-- Witness for claim C9 at a concrete 32-byte input. -/
theorem claim9_witness :
    (generate_pkce_pair (List.replicate 32 0)).1.length = 43 ∧
      (generate_pkce_pair (List.replicate 32 0)).1 =
        rstripEq (urlsafe_b64encode (List.replicate 32 0)) :=
  ⟨(claim9_theorem (List.replicate 32 0) (by decide)).2.2.1,
    (claim9_theorem (List.replicate 32 0) (by decide)).2.1⟩

end Broker
